import Mathlib

/-!
Verification of the go-metrics-influxdb reporter (`influxdb.go`).

The development shallowly embeds the reporter: metric snapshots are carried
by the metric values themselves (go-metrics snapshots are immutable reads),
Go `int64` values become `ℤ`, Go `float64` values are treated as exact
numbers (`ℚ`) since the reporter only copies them around and performs no
arithmetic on them, maps become association lists with unique keys, and the
external InfluxDB client library is an opaque sink whose success or failure
is an input to each step.
-/

namespace GoMetricsInfluxdb

/-- A field value of a point: the reporter stores either Go integers
(`Count`, `Max`, ...) or Go floats (`Mean`, rates, quantiles, ...). -/
inductive FVal where
  | i (n : ℤ)
  | f (q : ℚ)
deriving DecidableEq, Repr

/-- Tag sets and the `tags` argument of `client.NewPoint`: a Go
`map[string]string`, embedded as an association list with unique keys. -/
abbrev Tags := List (String × String)

/-- Go map indexing `m[k]` on a `map[string]string`: the zero value `""`
when the key is absent. -/
def tagGet (ts : Tags) (k : String) : String := (ts.lookup k).getD ""

/-- Go `delete(m, k)` on a tag map. -/
def tagDelete (ts : Tags) (k : String) : Tags := ts.filter (fun p => p.1 ≠ k)

/-- One time-series point as built by `client.NewPoint(measurement, tags,
fields, now)`. Field insertion order follows the source literals; the
timestamp is the external clock value `time.Now()` observed for the entry. -/
structure Point where
  measurement : String
  tags : Tags
  fields : List (String × FVal)
  time : ℕ
deriving DecidableEq, Repr

/-- Snapshot state of a go-metrics `Histogram`: the values `send` reads
from `metric.Snapshot()`. `percentile` is the distribution's quantile
function backing `Percentiles`. -/
structure HistSnap where
  count : ℤ
  max : ℤ
  mean : ℚ
  min : ℤ
  stddev : ℚ
  variance : ℚ
  percentile : ℚ → ℚ

/-- Snapshot state of a go-metrics `Meter`. -/
structure MeterSnap where
  count : ℤ
  rate1 : ℚ
  rate5 : ℚ
  rate15 : ℚ
  rateMean : ℚ
deriving DecidableEq, Repr

/-- Snapshot state of a go-metrics `Timer` (histogram ⊕ meter statistics). -/
structure TimerSnap where
  count : ℤ
  max : ℤ
  mean : ℚ
  min : ℤ
  stddev : ℚ
  variance : ℚ
  percentile : ℚ → ℚ
  rate1 : ℚ
  rate5 : ℚ
  rate15 : ℚ
  rateMean : ℚ

/-- go-metrics `Snapshot().Percentiles(cs)`: one value per requested cut
point, in the requested order. -/
def percentilesAt (p : ℚ → ℚ) (cs : List ℚ) : List ℚ := cs.map p

/-- A registry entry's metric, already carrying its snapshot state. `other`
stands for any value whose dynamic type matches none of the six cases of
the type switch in `send` (influxdb.go:112-187). -/
inductive Metric where
  | counter (count : ℤ)
  | gauge (value : ℤ)
  | gaugeFloat64 (value : ℚ)
  | histogram (s : HistSnap)
  | meter (s : MeterSnap)
  | timer (s : TimerSnap)
  | other

/-- A metrics registry: the external name → metric mapping walked by
`reg.Each`, in its (unspecified) iteration order. -/
abbrev Registry := List (String × Metric)

/-- The cut points `send` passes to `Percentiles`
(influxdb.go:136 and 166). -/
def cutPoints : List ℚ := [1/2, 3/4, 19/20, 99/100, 999/1000, 9999/10000]

/-- The body of the type switch in `send` (influxdb.go:112-187) for one
registry entry: zero or one point. The `getD` default branches are dead:
`percentilesAt` always returns six values for the six cut points. -/
def encodeMetric (tags : Tags) (now : ℕ) (name : String) : Metric → Option Point
  | .counter c => some ⟨name ++ ".count", tags, [("value", .i c)], now⟩
  | .gauge v => some ⟨name ++ ".gauge", tags, [("value", .i v)], now⟩
  | .gaugeFloat64 v => some ⟨name ++ ".gauge", tags, [("value", .f v)], now⟩
  | .histogram s =>
    let ps := percentilesAt s.percentile cutPoints
    some ⟨name ++ ".histogram", tags,
      [("count", .i s.count), ("max", .i s.max), ("mean", .f s.mean),
       ("min", .i s.min), ("stddev", .f s.stddev), ("variance", .f s.variance),
       ("p50", .f (ps.getD 0 0)), ("p75", .f (ps.getD 1 0)),
       ("p95", .f (ps.getD 2 0)), ("p99", .f (ps.getD 3 0)),
       ("p999", .f (ps.getD 4 0)), ("p9999", .f (ps.getD 5 0))], now⟩
  | .meter s =>
    some ⟨name ++ ".meter", tags,
      [("count", .i s.count), ("m1", .f s.rate1), ("m5", .f s.rate5),
       ("m15", .f s.rate15), ("mean", .f s.rateMean)], now⟩
  | .timer s =>
    let ps := percentilesAt s.percentile cutPoints
    some ⟨name ++ ".timer", tags,
      [("count", .i s.count), ("max", .i s.max), ("mean", .f s.mean),
       ("min", .i s.min), ("stddev", .f s.stddev), ("variance", .f s.variance),
       ("p50", .f (ps.getD 0 0)), ("p75", .f (ps.getD 1 0)),
       ("p95", .f (ps.getD 2 0)), ("p99", .f (ps.getD 3 0)),
       ("p999", .f (ps.getD 4 0)), ("p9999", .f (ps.getD 5 0)),
       ("m1", .f s.rate1), ("m5", .f s.rate5), ("m15", .f s.rate15),
       ("meanrate", .f s.rateMean)], now⟩
  | .other => none

/-- The batch accumulated by one flush: `send` walks the registry with
`reg.Each`, adding the encoded point of each recognized entry
(influxdb.go:109-188). -/
def sendPoints (tags : Tags) (now : ℕ) (reg : Registry) : List Point :=
  reg.filterMap (fun e => encodeMetric tags now e.1 e.2)

/-- Splits the address at the first occurrence of `://`. -/
def splitScheme : List Char → Option (List Char × List Char)
  | [] => none
  | ':' :: '/' :: '/' :: rest => some ([], rest)
  | c :: rest =>
    match splitScheme rest with
    | none => none
    | some (s, r) => some (c :: s, r)

/-- The host component: everything up to the first `/` of the part after
`://`. -/
def takeHost : List Char → List Char
  | [] => []
  | '/' :: _ => []
  | c :: rest => c :: takeHost rest

/-- Modelled from net/url (external library): `url.Parse` restricted to the
two components `makeClient` reads, `Scheme` (lowercased) and `Host`, for
addresses of the shapes the reporter is given. An address without `://`
parses with an empty scheme, which `makeClient`'s default branch rejects,
as in Go; the `none` case (a non-nil `url.Parse` error) is not produced by
any address these claims concern, but `makeClient` keeps the source's
early-return branch for it. -/
def parseURL (addr : String) : Option (String × String) :=
  match splitScheme addr.toList with
  | none => some ("", "")
  | some (s, rest) =>
    some (String.mk (s.map Char.toLower), String.mk (takeHost rest))

/-- The client handle held in `reporter.client`: `nilClient` is the Go nil
interface value (the initial value, and the value assigned when a library
constructor fails). -/
inductive ClientV where
  | nilClient
  | http (addr username password : String)
  | udp (host : String) (payloadSize : ℕ)
deriving DecidableEq, Repr

/-- Failure modes of `makeClient` (influxdb.go:52-76): address parse
failure, a client library constructor failure, or the
`errors.New("invalid scheme")` default branch. -/
inductive MakeClientErr where
  | parseErr
  | libErr
  | invalidScheme
deriving DecidableEq, Repr

/-- `(*reporter).makeClient` (influxdb.go:52-76). `old` is the current
`r.client` (untouched on parse failure and on the invalid-scheme branch);
`libOk` is the outcome of the external client library constructor, which on
failure returns a nil client that is still assigned to `r.client` by the
multiple assignment. The UDP variant uses only `url.Host` and the fixed
`PayloadSize: 1024`. -/
def makeClient (old : ClientV) (addr username password : String) (libOk : Bool) :
    ClientV × Option MakeClientErr :=
  match parseURL addr with
  | none => (old, some .parseErr)
  | some (scheme, host) =>
    if scheme = "http" then
      if libOk then (.http addr username password, none) else (.nilClient, some .libErr)
    else if scheme = "udp" then
      if libOk then (.udp host 1024, none) else (.nilClient, some .libErr)
    else (old, some .invalidScheme)

/-- `WithTags` (influxdb.go:34-50): `true` iff `rep.run()` is reached, i.e.
iff the initial `makeClient` succeeds. -/
def withTagsStartsLoop (addr username password : String) (libOk : Bool) : Bool :=
  ((makeClient .nilClient addr username password libOk).2).isNone

/-- The immutable configuration of one looping reporter instance. -/
structure Cfg where
  addr : String
  database : String
  username : String
  password : String
  tags : Tags

/-- The external world observed during one tick of `run`: the registry
contents at the walk, the clock, and the outcomes of the opaque transport
operations (`Write`, `Ping`) and of the client library constructor used by
a reconnect. -/
structure Env where
  registry : Registry
  now : ℕ
  writeOk : Bool
  pingOk : Bool
  connectOk : Bool

/-- Which of the two tickers of `run` (influxdb.go:79-80) fired. -/
inductive Tick where
  | flush
  | ping
deriving DecidableEq, Repr

/-- The externally visible action of one tick of `run`. -/
inductive Event where
  | writeAttempt (batch : List Point) (ok : Bool)
  | pingSucceeded
  | reconnectAttempt (succeeded : Bool)
deriving DecidableEq, Repr

/-- One iteration of the `for { select { ... } }` loop of `run`
(influxdb.go:82-98). A flush tick runs `send` — whose `Write` result is
only logged — and a ping tick runs `Ping`, retrying `makeClient` on ping
failure. The body never breaks or returns: the function is total and its
result is the next state. -/
def stepLoop (cfg : Cfg) (c : ClientV) : Tick → Env → ClientV × Event
  | .flush, env =>
    (c, .writeAttempt (sendPoints cfg.tags env.now env.registry) env.writeOk)
  | .ping, env =>
    if env.pingOk then (c, .pingSucceeded)
    else
      let r := makeClient c cfg.addr cfg.username cfg.password env.connectOk
      (r.1, .reconnectAttempt r.2.isNone)

/-- `run` over a finite prefix of ticks: the loop never exits, so every
tick in the prefix is processed and produces its event. -/
def runLoop (cfg : Cfg) (c : ClientV) : List (Tick × Env) → ClientV × List Event
  | [] => (c, [])
  | (t, env) :: rest =>
    let s := stepLoop cfg c t env
    let r := runLoop cfg s.1 rest
    (r.1, s.2 :: r.2)

/-- The batch `send` (influxdb.go:101-191) passes to `r.client.Write`
during one flush; `none` would mean no write call is performed. The source
reaches `return r.client.Write(bp)` unconditionally after the registry
walk (`NewBatchPoints` with only a database set never fails), so the call
always happens, whatever the batch. -/
def flushWriteCall (cfg : Cfg) (env : Env) : Option (List Point) :=
  some (sendPoints cfg.tags env.now env.registry)

/-- `strconv.Atoi` digit parsing: base-10 digits only, empty input is a
syntax error. -/
def parseDigits (cs : List Char) : Option ℕ :=
  if cs = [] then none
  else
    cs.foldl
      (fun acc c =>
        match acc with
        | some a => if '0' ≤ c ∧ c ≤ '9' then some (a * 10 + (c.toNat - '0'.toNat)) else none
        | none => none)
      (some 0)

/-- Modelled from strconv (external library): `strconv.Atoi`, `none` when a
non-nil error is returned (empty string, stray characters, or a value
outside the `int64` range). -/
def atoi (s : String) : Option ℤ :=
  let conv : ℤ → List Char → Option ℤ := fun sign cs =>
    (parseDigits cs).bind fun n =>
      let v : ℤ := sign * (n : ℤ)
      if -(2 ^ 63) ≤ v ∧ v ≤ 2 ^ 63 - 1 then some v else none
  match s.toList with
  | '-' :: cs => conv (-1) cs
  | '+' :: cs => conv 1 cs
  | cs => conv 1 cs

/-- `ReporterItem` (influxdb.go:194-197): a registry plus the caller's tag
map. -/
structure ReporterItem where
  reg : Registry
  tags : Tags

/-- Failure modes of the one-shot `Send` (influxdb.go:226-264):
the `strconv.Atoi` error on the `start_time` tag, the
`errors.New("no point to send")` empty-batch error, and a `Write` failure. -/
inductive SendErr where
  | malformedTag
  | noPointToSend
  | writeErr
deriving DecidableEq, Repr

/-- The points the one-shot `Send` accumulates from its registry walk
(influxdb.go:243-256): only `GaugeFloat64` entries produce a point, whose
measurement uses the `measureName` argument and whose fields carry the
promoted `start_time` value. -/
def sendOncePoints (reg : Registry) (tags2 : Tags) (measureName : String)
    (st : ℤ) (now : ℕ) : List Point :=
  reg.filterMap (fun e =>
    match e.2 with
    | .gaugeFloat64 v =>
      some ⟨measureName ++ ".gauge", tags2,
            [("value", FVal.f v), ("start_time", FVal.i st)], now⟩
    | _ => none)

/-- `(*Reporter).Send` (influxdb.go:226-264). The second component is the
state of `item.Tags` after the call (the source mutates the map in place:
`delete` only runs once `Atoi` has succeeded). `writeOk` is the outcome of
the opaque `r.client.Write`; `NewBatchPoints` with only a database set
never fails. -/
def Send (item : ReporterItem) (measureName : String) (now : ℕ) (writeOk : Bool) :
    Except SendErr (List Point) × Tags :=
  match atoi (tagGet item.tags "start_time") with
  | none => (.error .malformedTag, item.tags)
  | some st =>
    let tags2 := tagDelete item.tags "start_time"
    let pts := sendOncePoints item.reg tags2 measureName st now
    if pts.length > 0 then
      (if writeOk then (.ok pts, tags2) else (.error .writeErr, tags2))
    else
      (.error .noPointToSend, tags2)

/-- Looking up a key in a tag map it was deleted from yields nothing. -/
theorem lookup_tagDelete (ts : Tags) (k : String) :
    (tagDelete ts k).lookup k = none := by
  induction ts with
  | nil => rfl
  | cons a t ih =>
    by_cases h : a.1 = k
    · simpa [tagDelete, List.filter_cons, h] using ih
    · have hb : (k == a.1) = false := beq_eq_false_iff_ne.mpr (fun e => h e.symm)
      simpa [tagDelete, List.filter_cons, h, List.lookup, hb] using ih

/-- C1 (counterexample): it is not the case that a flush whose batch has
zero points skips the `write` call — with an empty registry, `send` still
passes the (empty) batch to `r.client.Write`. -/
theorem C1_counterexample :
    ¬ (∀ (cfg : Cfg) (env : Env),
        sendPoints cfg.tags env.now env.registry = [] →
        flushWriteCall cfg env = none) := by
  intro h
  have h2 := h ⟨"http://localhost:8086", "db", "", "", []⟩ ⟨[], 0, true, true, true⟩ rfl
  simp [flushWriteCall] at h2

/-- C1 (amended): every flush of the looping reporter passes its batch to
`write`, empty or not; the one-shot `Send`, once `start_time` has parsed,
returns the `no point to send` error on an empty batch instead of
writing. -/
theorem C1_empty_batch_behavior :
    (∀ (cfg : Cfg) (env : Env),
      flushWriteCall cfg env = some (sendPoints cfg.tags env.now env.registry)) ∧
    (∀ (item : ReporterItem) (mn : String) (now : ℕ) (w : Bool) (st : ℤ),
      atoi (tagGet item.tags "start_time") = some st →
      sendOncePoints item.reg (tagDelete item.tags "start_time") mn st now = [] →
      Send item mn now w =
        (Except.error SendErr.noPointToSend, tagDelete item.tags "start_time")) := by
  refine ⟨fun _ _ => rfl, ?_⟩
  intro item mn now w st hst hpts
  simp [Send, hst, hpts]

/-- C1 (witness): a registry holding only a counter gives the one-shot
`Send` nothing to encode, and it fails with the no-point error. -/
theorem C1_empty_batch_behavior_witness :
    Send ⟨[("cpu", Metric.counter 1)], [("start_time", "5")]⟩ "m" 0 true =
      (Except.error SendErr.noPointToSend, []) :=
  C1_empty_batch_behavior.2 ⟨[("cpu", Metric.counter 1)], [("start_time", "5")]⟩
    "m" 0 true 5 (by decide) rfl

/-- C2: each supported metric kind encodes to exactly one point carrying
the §4.1 field set, with the quantile fields taken positionally from the
cut points 0.5, 0.75, 0.95, 0.99, 0.999, 0.9999 in that order; a counter
`requests` at 5 flushes as the single point `requests.count` with field
`value = 5`. -/
theorem C2_encoding_matches_table (tags : Tags) (now : ℕ) (name : String) :
    (∀ c : ℤ, encodeMetric tags now name (.counter c) =
      some ⟨name ++ ".count", tags, [("value", .i c)], now⟩) ∧
    (∀ v : ℤ, encodeMetric tags now name (.gauge v) =
      some ⟨name ++ ".gauge", tags, [("value", .i v)], now⟩) ∧
    (∀ v : ℚ, encodeMetric tags now name (.gaugeFloat64 v) =
      some ⟨name ++ ".gauge", tags, [("value", .f v)], now⟩) ∧
    (∀ s : HistSnap, encodeMetric tags now name (.histogram s) =
      some ⟨name ++ ".histogram", tags,
        [("count", .i s.count), ("max", .i s.max), ("mean", .f s.mean),
         ("min", .i s.min), ("stddev", .f s.stddev), ("variance", .f s.variance),
         ("p50", .f (s.percentile (1/2))), ("p75", .f (s.percentile (3/4))),
         ("p95", .f (s.percentile (19/20))), ("p99", .f (s.percentile (99/100))),
         ("p999", .f (s.percentile (999/1000))),
         ("p9999", .f (s.percentile (9999/10000)))], now⟩) ∧
    (∀ s : MeterSnap, encodeMetric tags now name (.meter s) =
      some ⟨name ++ ".meter", tags,
        [("count", .i s.count), ("m1", .f s.rate1), ("m5", .f s.rate5),
         ("m15", .f s.rate15), ("mean", .f s.rateMean)], now⟩) ∧
    (∀ s : TimerSnap, encodeMetric tags now name (.timer s) =
      some ⟨name ++ ".timer", tags,
        [("count", .i s.count), ("max", .i s.max), ("mean", .f s.mean),
         ("min", .i s.min), ("stddev", .f s.stddev), ("variance", .f s.variance),
         ("p50", .f (s.percentile (1/2))), ("p75", .f (s.percentile (3/4))),
         ("p95", .f (s.percentile (19/20))), ("p99", .f (s.percentile (99/100))),
         ("p999", .f (s.percentile (999/1000))),
         ("p9999", .f (s.percentile (9999/10000))),
         ("m1", .f s.rate1), ("m5", .f s.rate5), ("m15", .f s.rate15),
         ("meanrate", .f s.rateMean)], now⟩) ∧
    sendPoints tags now [("requests", .counter 5)] =
      [⟨"requests.count", tags, [("value", .i 5)], now⟩] :=
  ⟨fun _ => rfl, fun _ => rfl, fun _ => rfl, fun _ => rfl, fun _ => rfl,
   fun _ => rfl, rfl⟩

/-- C3: an address whose scheme is neither `http` nor `udp` makes
`makeClient` fail with the invalid-scheme error and keeps `WithTags` from
entering the loop; a `udp` address builds the connectionless client from
the host alone with payload size 1024, whatever the credentials. -/
theorem C3_scheme_selection :
    (∀ (old : ClientV) (u p : String) (libOk : Bool) (addr scheme host : String),
      parseURL addr = some (scheme, host) → scheme ≠ "http" → scheme ≠ "udp" →
      makeClient old addr u p libOk = (old, some MakeClientErr.invalidScheme) ∧
      withTagsStartsLoop addr u p libOk = false) ∧
    (∀ (old : ClientV) (u p addr scheme host : String),
      parseURL addr = some (scheme, host) → scheme = "udp" →
      makeClient old addr u p true = (ClientV.udp host 1024, none)) ∧
    makeClient ClientV.nilClient "ftp://localhost" "" "" true =
      (ClientV.nilClient, some MakeClientErr.invalidScheme) ∧
    makeClient ClientV.nilClient "udp://localhost:8125" "" "" true =
      (ClientV.udp "localhost:8125" 1024, none) := by
  refine ⟨?_, ?_, by decide, by decide⟩
  · intro old u p libOk addr scheme host hp h1 h2
    exact ⟨by simp [makeClient, hp, h1, h2],
           by simp [withTagsStartsLoop, makeClient, hp, h1, h2]⟩
  · intro old u p addr scheme host hp h
    subst h
    simp [makeClient, hp]

/-- C3 (witness): `ftp://localhost` is rejected as an invalid scheme and
the loop is not started; `udp://localhost:8125` builds the UDP client. -/
theorem C3_scheme_selection_witness :
    (makeClient ClientV.nilClient "ftp://localhost" "" "" true =
      (ClientV.nilClient, some MakeClientErr.invalidScheme) ∧
     withTagsStartsLoop "ftp://localhost" "" "" true = false) ∧
    makeClient ClientV.nilClient "udp://localhost:8125" "" "" true =
      (ClientV.udp "localhost:8125" 1024, none) :=
  ⟨C3_scheme_selection.1 ClientV.nilClient "" "" true "ftp://localhost"
      "ftp" "localhost" (by decide) (by decide) (by decide),
   C3_scheme_selection.2.1 ClientV.nilClient "" "" "udp://localhost:8125"
      "udp" "localhost:8125" (by decide) rfl⟩

/-- C4: a flush tick whose write fails leaves the client handle (the whole
mutable reporter state) unchanged and only records the attempt, whose batch
is computed fresh from the registry at that tick; and the loop processes
every tick of any schedule — one event per tick, nothing escapes the
worker. -/
theorem C4_flush_failure_is_frame_preserving :
    (∀ (cfg : Cfg) (c : ClientV) (env : Env), env.writeOk = false →
      stepLoop cfg c .flush env =
        (c, .writeAttempt (sendPoints cfg.tags env.now env.registry) false)) ∧
    (∀ (cfg : Cfg) (c : ClientV) (ts : List (Tick × Env)),
      ((runLoop cfg c ts).2).length = ts.length) := by
  constructor
  · intro cfg c env h
    simp [stepLoop, h]
  · intro cfg c ts
    induction ts generalizing c with
    | nil => rfl
    | cons t rest ih => simp [runLoop, ih]

/-- C4 (witness): a failed write on an empty registry leaves the nil client
in place and the loop alive. -/
theorem C4_flush_failure_is_frame_preserving_witness :
    stepLoop ⟨"http://localhost:8086", "db", "", "", []⟩ ClientV.nilClient
      .flush ⟨[], 0, false, true, true⟩ =
      (ClientV.nilClient, .writeAttempt [] false) :=
  C4_flush_failure_is_frame_preserving.1
    ⟨"http://localhost:8086", "db", "", "", []⟩ ClientV.nilClient
    ⟨[], 0, false, true, true⟩ rfl

/-- C5: on every ping tick that fails, the loop attempts a reconnect via
`makeClient`; a run of any number of failing ping ticks yields exactly one
reconnect attempt per tick (no cap, no backoff, no escalation), flush ticks
keep attempting writes in any state, and once the library constructor
succeeds for a valid scheme the reconnect succeeds. -/
theorem C5_ping_failure_reconnect_recurrence (cfg : Cfg) (env : Env)
    (hping : env.pingOk = false) :
    (∀ c : ClientV, stepLoop cfg c .ping env =
      ((makeClient c cfg.addr cfg.username cfg.password env.connectOk).1,
       .reconnectAttempt
         ((makeClient c cfg.addr cfg.username cfg.password env.connectOk).2).isNone)) ∧
    (∀ (c : ClientV) (n : ℕ),
      ((runLoop cfg c (List.replicate n (Tick.ping, env))).2).length = n ∧
      ∀ e ∈ (runLoop cfg c (List.replicate n (Tick.ping, env))).2,
        ∃ b, e = Event.reconnectAttempt b) ∧
    (∀ (c : ClientV) (envf : Env),
      (stepLoop cfg c .flush envf).2 =
        .writeAttempt (sendPoints cfg.tags envf.now envf.registry) envf.writeOk) ∧
    (∀ (c : ClientV) (scheme host : String),
      parseURL cfg.addr = some (scheme, host) →
      (scheme = "http" ∨ scheme = "udp") → env.connectOk = true →
      (stepLoop cfg c .ping env).2 = Event.reconnectAttempt true) := by
  refine ⟨fun c => by simp [stepLoop, hping], ?_, fun c envf => rfl, ?_⟩
  · intro c n
    induction n generalizing c with
    | zero => exact ⟨rfl, by simp [runLoop]⟩
    | succ m ih =>
      rw [List.replicate_succ]
      refine ⟨?_, ?_⟩
      · simpa [runLoop] using (ih _).1
      · intro e he
        simp only [runLoop, stepLoop, hping, if_neg] at he
        rcases List.mem_cons.mp he with h | h
        · exact ⟨_, by simpa using h⟩
        · exact (ih _).2 e (by simpa [runLoop] using h)
  · intro c scheme host hp hsch hc
    rcases hsch with h | h <;> subst h <;>
      simp [stepLoop, hping, makeClient, hp, hc]

/-- C5 (witness): with ping failing and the library succeeding on an
`http` address, a ping tick reconnects successfully, and three failing
ping ticks in a row each record a reconnect attempt. -/
theorem C5_ping_failure_reconnect_recurrence_witness :
    (stepLoop ⟨"http://localhost:8086", "db", "", "", []⟩ ClientV.nilClient
      .ping ⟨[], 0, true, false, true⟩).2 = Event.reconnectAttempt true ∧
    ((runLoop ⟨"http://localhost:8086", "db", "", "", []⟩ ClientV.nilClient
      (List.replicate 3 (Tick.ping, ⟨[], 0, true, false, true⟩))).2).length = 3 :=
  ⟨(C5_ping_failure_reconnect_recurrence
      ⟨"http://localhost:8086", "db", "", "", []⟩ ⟨[], 0, true, false, true⟩ rfl).2.2.2
      ClientV.nilClient "http" "localhost:8086" (by decide) (Or.inl rfl) rfl,
   ((C5_ping_failure_reconnect_recurrence
      ⟨"http://localhost:8086", "db", "", "", []⟩ ⟨[], 0, true, false, true⟩ rfl).2.1
      ClientV.nilClient 3).1⟩

/-- C6: a registry entry of an unrecognized kind encodes to no point, its
presence anywhere in the registry only drops out of the batch, and the
flush still performs its (error-free) write call. -/
theorem C6_unrecognized_kind_skipped (tags : Tags) (now : ℕ) (name : String) :
    encodeMetric tags now name .other = none ∧
    (∀ (pre post : Registry),
      sendPoints tags now (pre ++ (name, Metric.other) :: post) =
        sendPoints tags now pre ++ sendPoints tags now post) ∧
    (∀ (cfg : Cfg) (env : Env), (flushWriteCall cfg env).isSome = true) := by
  refine ⟨rfl, ?_, fun _ _ => rfl⟩
  intro pre post
  simp [sendPoints, encodeMetric]

/-- C7: the one-shot `Send` encodes only FloatGauge entries — every other
kind drops out wherever it sits in the registry — and each point carries
the gauge value plus the promoted `start_time` field, over a tag set from
which `start_time` is gone; a FloatGauge `cpu = 0.75` with tag
`start_time = "1700000000"` yields exactly the expected point. -/
theorem C7_send_once_floatgauge_only (item : ReporterItem) (mn : String)
    (now : ℕ) (w : Bool) (st : ℤ)
    (hst : atoi (tagGet item.tags "start_time") = some st) :
    (∀ (pre post : Registry) (nm : String) (m : Metric),
      (∀ v : ℚ, m ≠ Metric.gaugeFloat64 v) →
      sendOncePoints (pre ++ (nm, m) :: post)
          (tagDelete item.tags "start_time") mn st now =
        sendOncePoints pre (tagDelete item.tags "start_time") mn st now ++
        sendOncePoints post (tagDelete item.tags "start_time") mn st now) ∧
    (∀ (nm : String) (v : ℚ),
      sendOncePoints [(nm, Metric.gaugeFloat64 v)]
          (tagDelete item.tags "start_time") mn st now =
        [⟨mn ++ ".gauge", tagDelete item.tags "start_time",
          [("value", FVal.f v), ("start_time", FVal.i st)], now⟩]) ∧
    ((tagDelete item.tags "start_time").lookup "start_time" = none) ∧
    (w = true →
      sendOncePoints item.reg (tagDelete item.tags "start_time") mn st now ≠ [] →
      Send item mn now w =
        (Except.ok (sendOncePoints item.reg (tagDelete item.tags "start_time") mn st now),
         tagDelete item.tags "start_time")) ∧
    Send ⟨[("cpu", Metric.gaugeFloat64 (3/4))], [("start_time", "1700000000")]⟩
        "cpu" now true =
      (Except.ok [⟨"cpu.gauge", [],
        [("value", FVal.f (3/4)), ("start_time", FVal.i 1700000000)], now⟩], []) := by
  refine ⟨?_, fun nm v => rfl, lookup_tagDelete _ _, ?_, rfl⟩
  · intro pre post nm m hm
    cases m <;> first
    | exact absurd rfl (hm _)
    | simp [sendOncePoints]
  · intro hw hne
    have hp : 0 < (sendOncePoints item.reg (tagDelete item.tags "start_time") mn st now).length :=
      List.length_pos.mpr hne
    simp [Send, hst, hw, hp]

/-- C7 (witness): the scenario instance, via the general theorem. -/
theorem C7_send_once_floatgauge_only_witness :
    sendOncePoints [("cpu", Metric.gaugeFloat64 (3/4))]
        (tagDelete [("start_time", "1700000000")] "start_time") "cpu" 1700000000 0 =
      [⟨"cpu.gauge", tagDelete [("start_time", "1700000000")] "start_time",
        [("value", FVal.f (3/4)), ("start_time", FVal.i 1700000000)], 0⟩] ∧
    sendOncePoints ([] ++ ("n", Metric.counter 1) :: [])
        (tagDelete [("start_time", "1700000000")] "start_time") "cpu" 1700000000 0 =
      sendOncePoints [] (tagDelete [("start_time", "1700000000")] "start_time")
        "cpu" 1700000000 0 ++
      sendOncePoints [] (tagDelete [("start_time", "1700000000")] "start_time")
        "cpu" 1700000000 0 ∧
    Send ⟨[("cpu", Metric.gaugeFloat64 (3/4))], [("start_time", "1700000000")]⟩
        "cpu" 0 true =
      (Except.ok (sendOncePoints [("cpu", Metric.gaugeFloat64 (3/4))]
        (tagDelete [("start_time", "1700000000")] "start_time") "cpu" 1700000000 0),
       tagDelete [("start_time", "1700000000")] "start_time") ∧
    Send ⟨[("cpu", Metric.gaugeFloat64 (3/4))], [("start_time", "1700000000")]⟩
        "cpu" 0 true =
      (Except.ok [⟨"cpu.gauge", [],
        [("value", FVal.f (3/4)), ("start_time", FVal.i 1700000000)], 0⟩], []) := by
  have h := C7_send_once_floatgauge_only
    ⟨[("cpu", Metric.gaugeFloat64 (3/4))], [("start_time", "1700000000")]⟩
    "cpu" 0 true 1700000000 (by decide)
  exact ⟨h.2.1 "cpu" (3/4),
         h.1 [] [] "n" (Metric.counter 1) (fun v hv => Metric.noConfusion hv),
         h.2.2.2.1 rfl (by decide),
         h.2.2.2.2⟩

/-- C8: when the `start_time` tag does not parse as an integer, `Send`
returns the conversion failure with the tag map untouched, before any
registry walk or write — the result is the same for every registry and
every write outcome. -/
theorem C8_malformed_start_time (item : ReporterItem) (mn : String) (now : ℕ)
    (w : Bool) (h : atoi (tagGet item.tags "start_time") = none) :
    Send item mn now w = (Except.error SendErr.malformedTag, item.tags) ∧
    ∀ (reg2 : Registry) (w2 : Bool),
      Send ⟨reg2, item.tags⟩ mn now w2 =
        (Except.error SendErr.malformedTag, item.tags) := by
  exact ⟨by simp [Send, h], fun reg2 w2 => by simp [Send, h]⟩

/-- C8 (witness): `start_time = "abc"` fails the conversion even though the
registry holds a FloatGauge. -/
theorem C8_malformed_start_time_witness :
    Send ⟨[("cpu", Metric.gaugeFloat64 1)], [("start_time", "abc")]⟩ "m" 0 true =
      (Except.error SendErr.malformedTag, [("start_time", "abc")]) :=
  (C8_malformed_start_time ⟨[("cpu", Metric.gaugeFloat64 1)], [("start_time", "abc")]⟩
    "m" 0 true (by decide)).1

/-- C9: `Send` mutates the caller's tag map in place — after a successful
parse the `start_time` key is deleted and stays absent, so an immediate
second call with the resulting tags fails the conversion; after a failed
parse the tag map is returned unchanged. -/
theorem C9_send_mutates_tags_in_place (item : ReporterItem) (mn : String)
    (now : ℕ) (w : Bool) :
    (∀ st : ℤ, atoi (tagGet item.tags "start_time") = some st →
      (Send item mn now w).2 = tagDelete item.tags "start_time" ∧
      ((Send item mn now w).2).lookup "start_time" = none ∧
      (Send ⟨item.reg, (Send item mn now w).2⟩ mn now w).1 =
        Except.error SendErr.malformedTag) ∧
    (atoi (tagGet item.tags "start_time") = none →
      (Send item mn now w).2 = item.tags) := by
  constructor
  · intro st hst
    have h2 : (Send item mn now w).2 = tagDelete item.tags "start_time" := by
      simp [Send, hst, apply_ite Prod.snd]
    have hg : tagGet (tagDelete item.tags "start_time") "start_time" = "" := by
      simp [tagGet, lookup_tagDelete]
    have ha : atoi (tagGet (tagDelete item.tags "start_time") "start_time") = none := by
      rw [hg]; decide
    refine ⟨h2, by rw [h2]; exact lookup_tagDelete _ _, ?_⟩
    rw [h2]
    simp [Send, ha]
  · intro h
    simp [Send, h]

/-- C9 (witness): after a successful call the tag map has lost
`start_time`, and re-sending with the mutated item fails. -/
theorem C9_send_mutates_tags_in_place_witness :
    (Send ⟨[("cpu", Metric.gaugeFloat64 (3/4))], [("start_time", "7")]⟩ "m" 0 true).2 =
      tagDelete [("start_time", "7")] "start_time" ∧
    ((Send ⟨[("cpu", Metric.gaugeFloat64 (3/4))], [("start_time", "7")]⟩ "m" 0 true).2).lookup
      "start_time" = none := by
  have h := (C9_send_mutates_tags_in_place
    ⟨[("cpu", Metric.gaugeFloat64 (3/4))], [("start_time", "7")]⟩ "m" 0 true).1
    7 (by decide)
  exact ⟨h.1, h.2.1⟩

/-- C10: a tag map with no `start_time` key makes `Send` fail — the Go map
read yields the empty string, whose integer conversion fails, and the
error is returned with the tag map unchanged before any registry walk. -/
theorem C10_missing_start_time_errors (item : ReporterItem) (mn : String)
    (now : ℕ) (w : Bool) (h : item.tags.lookup "start_time" = none) :
    tagGet item.tags "start_time" = "" ∧
    atoi "" = none ∧
    Send item mn now w = (Except.error SendErr.malformedTag, item.tags) := by
  have hg : tagGet item.tags "start_time" = "" := by simp [tagGet, h]
  have ha : atoi (tagGet item.tags "start_time") = none := by rw [hg]; decide
  exact ⟨hg, by decide, by simp [Send, ha]⟩

/-- C10 (witness): a call with an empty tag map fails the conversion. -/
theorem C10_missing_start_time_errors_witness :
    Send ⟨[("cpu", Metric.gaugeFloat64 1)], []⟩ "m" 0 true =
      (Except.error SendErr.malformedTag, []) :=
  (C10_missing_start_time_errors ⟨[("cpu", Metric.gaugeFloat64 1)], []⟩
    "m" 0 true rfl).2.2

end GoMetricsInfluxdb
